import Mathlib

set_option maxRecDepth 100000

/-!
# Verification of the OpenWeatherMap Arduino client library

Shallow embedding of `src/OpenWeatherMap.h` / `src/OpenWeatherMap.cpp`.

Modelling conventions:
* JSON bodies are modelled as parsed JSON values (`Json`); the external
  ArduinoJson collaborator's `deserializeJson` is abstracted as an
  `Option Json` input to every decoder, where `none` stands for a body that
  is not syntactically valid JSON (`DeserializationError`).
* ArduinoJson's `doc["k"] | default` ("value if present and of a convertible
  type, else default") is modelled by `jGet`/`jGetF`/`jGetI`/`jGetU`/`jGetS`.
* C `float`/`double` values are modelled as rationals (`Rat`); every numeric
  literal appearing in the claims (10.0, 20.0, 25.5, the 0.01 cache
  tolerance) is treated exactly.
* A `char buf[N]` text field filled by `strncpy(buf, src, N-1)` inside a
  `memset`-zeroed structure holds exactly the first `N-1` characters of the
  source, modelled by `strFit N src`.  A separate byte-level model
  (`strncpyBuf`) captures `strncpy` into a buffer that was *not* zeroed,
  which is the situation in `parseGeoLocations` (no `memset` there).
* `millis()` Arduino time and the network are passed in explicitly: the
  outcome of one HTTP exchange is a `NetResult`.
-/

/-- JSON values as produced by the ArduinoJson collaborator. -/
inductive Json where
  | null
  | jbool (b : Bool)
  | num (q : Rat)
  | str (s : String)
  | arr (items : List Json)
  | obj (fields : List (String × Json))

/-- `doc["key"]` member access: first binding of `key` in an object,
`null` otherwise (ArduinoJson yields a null variant on any miss). -/
def jGet (j : Json) (key : String) : Json :=
  match j with
  | .obj fields =>
    match fields.find? (fun p => p.1 == key) with
    | some p => p.2
    | none => .null
  | _ => .null

/-- `v.is<JsonArray>()`. -/
def jIsArr (j : Json) : Bool :=
  match j with
  | .arr _ => true
  | _ => false

/-- `v.as<JsonArray>()` iteration: the elements when `v` is an array,
nothing otherwise (iterating a null/absent array visits no element). -/
def jArrItems (j : Json) : List Json :=
  match j with
  | .arr items => items
  | _ => []

/-- `v | default` at `float` type: numbers convert, everything else
(string, bool, null, containers) yields the default. -/
def jGetF (j : Json) (d : Rat) : Rat :=
  match j with
  | .num q => q
  | _ => d

/-- `v | default` at `int` type: integral numbers convert, a number with a
fractional part or any non-number yields the default. -/
def jGetI (j : Json) (d : Int) : Int :=
  match j with
  | .num q => if q.den = 1 then q.num else d
  | _ => d

/-- `v | default` at `unsigned long` type: non-negative integral numbers
convert, everything else yields the default. -/
def jGetU (j : Json) (d : Nat) : Nat :=
  match j with
  | .num q => if q.den = 1 ∧ 0 ≤ q.num then q.num.toNat else d
  | _ => d

/-- `v | default` at `const char*` type: strings convert, everything else
yields the default. -/
def jGetS (j : Json) (d : String) : String :=
  match j with
  | .str s => s
  | _ => d

-- Buffer sizes from OpenWeatherMap.h
def OWM_CITY_NAME_SIZE : Nat := 64
def OWM_COUNTRY_SIZE : Nat := 8
def OWM_DESCRIPTION_SIZE : Nat := 64
def OWM_ICON_SIZE : Nat := 8
def OWM_MAX_FORECAST_ITEMS : Int := 40
def OWM_MAX_GEO_RESULTS : Int := 5

/-- Content stored by `strncpy(dest, src, cap - 1)` into a `char dest[cap]`
buffer whose byte `cap-1` is already zero (the `memset` contexts): the
source truncated to at most `cap - 1` characters. -/
def strFit (cap : Nat) (s : String) : String :=
  s.take (cap - 1)

-- ============================================================
-- Data structures (OpenWeatherMap.h), with `zero` = memset(0) state
-- ============================================================

structure OWM_WeatherCondition where
  id : Int
  main : String
  description : String
  icon : String
deriving DecidableEq, Repr

def zeroWeatherCondition : OWM_WeatherCondition :=
  { id := 0, main := "", description := "", icon := "" }

structure OWM_MainData where
  temp : Rat
  feels_like : Rat
  temp_min : Rat
  temp_max : Rat
  pressure : Int
  humidity : Int
  sea_level : Int
  grnd_level : Int
deriving DecidableEq, Repr

def zeroMainData : OWM_MainData :=
  { temp := 0, feels_like := 0, temp_min := 0, temp_max := 0,
    pressure := 0, humidity := 0, sea_level := 0, grnd_level := 0 }

structure OWM_WindData where
  speed : Rat
  deg : Int
  gust : Rat
deriving DecidableEq, Repr

def zeroWindData : OWM_WindData := { speed := 0, deg := 0, gust := 0 }

structure OWM_CurrentWeather where
  lat : Rat
  lon : Rat
  weather : OWM_WeatherCondition
  main : OWM_MainData
  visibility : Int
  wind : OWM_WindData
  clouds : Int
  rain_1h : Rat
  snow_1h : Rat
  dt : Nat
  country : String
  sunrise : Nat
  sunset : Nat
  timezone : Int
  name : String
deriving DecidableEq, Repr

def zeroCurrentWeather : OWM_CurrentWeather :=
  { lat := 0, lon := 0, weather := zeroWeatherCondition, main := zeroMainData,
    visibility := 0, wind := zeroWindData, clouds := 0, rain_1h := 0,
    snow_1h := 0, dt := 0, country := "", sunrise := 0, sunset := 0,
    timezone := 0, name := "" }

structure OWM_AirComponents where
  co : Rat
  no : Rat
  no2 : Rat
  o3 : Rat
  so2 : Rat
  pm2_5 : Rat
  pm10 : Rat
  nh3 : Rat
deriving DecidableEq, Repr

def zeroAirComponents : OWM_AirComponents :=
  { co := 0, no := 0, no2 := 0, o3 := 0, so2 := 0, pm2_5 := 0,
    pm10 := 0, nh3 := 0 }

structure OWM_AirPollution where
  dt : Nat
  aqi : Int
  components : OWM_AirComponents
deriving DecidableEq, Repr

def zeroAirPollution : OWM_AirPollution :=
  { dt := 0, aqi := 0, components := zeroAirComponents }

structure OWM_ForecastItem where
  dt : Nat
  main : OWM_MainData
  weather : OWM_WeatherCondition
  wind : OWM_WindData
  clouds : Int
  visibility : Int
  pop : Rat
  rain_3h : Rat
  snow_3h : Rat
  dt_txt : String
deriving DecidableEq, Repr

def zeroForecastItem : OWM_ForecastItem :=
  { dt := 0, main := zeroMainData, weather := zeroWeatherCondition,
    wind := zeroWindData, clouds := 0, visibility := 0, pop := 0,
    rain_3h := 0, snow_3h := 0, dt_txt := "" }

structure OWM_Forecast where
  cnt : Int
  items : List OWM_ForecastItem
  city_name : String
  country : String
  lat : Rat
  lon : Rat
  timezone : Int
  sunrise : Nat
  sunset : Nat
deriving DecidableEq, Repr

def zeroForecast : OWM_Forecast :=
  { cnt := 0, items := List.replicate 40 zeroForecastItem, city_name := "",
    country := "", lat := 0, lon := 0, timezone := 0, sunrise := 0,
    sunset := 0 }

structure OWM_GeoLocation where
  name : String
  country : String
  state : String
  lat : Rat
  lon : Rat
deriving DecidableEq, Repr

def zeroGeoLocation : OWM_GeoLocation :=
  { name := "", country := "", state := "", lat := 0, lon := 0 }

-- ============================================================
-- JSON parsing helpers (OpenWeatherMap.cpp lines 792-825)
-- ============================================================

/-- `parseWeatherCondition` (lines 792-797); the enclosing structure was
`memset` to zero, so each `strncpy` stores the truncated string. -/
def parseWeatherCondition (obj : Json) : OWM_WeatherCondition :=
  { id := jGetI (jGet obj "id") 0,
    main := strFit 32 (jGetS (jGet obj "main") ""),
    description := strFit OWM_DESCRIPTION_SIZE (jGetS (jGet obj "description") ""),
    icon := strFit OWM_ICON_SIZE (jGetS (jGet obj "icon") "") }

/-- `parseMainData` (lines 799-808). -/
def parseMainData (obj : Json) : OWM_MainData :=
  { temp := jGetF (jGet obj "temp") 0,
    feels_like := jGetF (jGet obj "feels_like") 0,
    temp_min := jGetF (jGet obj "temp_min") 0,
    temp_max := jGetF (jGet obj "temp_max") 0,
    pressure := jGetI (jGet obj "pressure") 0,
    humidity := jGetI (jGet obj "humidity") 0,
    sea_level := jGetI (jGet obj "sea_level") 0,
    grnd_level := jGetI (jGet obj "grnd_level") 0 }

/-- `parseWindData` (lines 810-814). -/
def parseWindData (obj : Json) : OWM_WindData :=
  { speed := jGetF (jGet obj "speed") 0,
    deg := jGetI (jGet obj "deg") 0,
    gust := jGetF (jGet obj "gust") 0 }

/-- `parseAirComponents` (lines 816-825). -/
def parseAirComponents (obj : Json) : OWM_AirComponents :=
  { co := jGetF (jGet obj "co") 0,
    no := jGetF (jGet obj "no") 0,
    no2 := jGetF (jGet obj "no2") 0,
    o3 := jGetF (jGet obj "o3") 0,
    so2 := jGetF (jGet obj "so2") 0,
    pm2_5 := jGetF (jGet obj "pm2_5") 0,
    pm10 := jGetF (jGet obj "pm10") 0,
    nh3 := jGetF (jGet obj "nh3") 0 }

/-- The `weather` array handling shared by `parseCurrentWeather` and
`parseForecast`: take the first entry when `doc["weather"]` is a non-empty
array, otherwise leave the zeroed condition. -/
def firstWeatherCondition (j : Json) : OWM_WeatherCondition :=
  match j with
  | .arr (w :: _) => parseWeatherCondition w
  | _ => zeroWeatherCondition

/-- `parseCurrentWeather` (lines 569-623).  The structure is `memset` to
zero first; a deserialization error (`none` body) returns `false` with the
zeroed structure; any successfully parsed JSON value fills every field with
present-or-default semantics and returns `true`. -/
def parseCurrentWeather (body : Option Json) : OWM_CurrentWeather × Bool :=
  match body with
  | none => (zeroCurrentWeather, false)
  | some doc =>
    ({ lat := jGetF (jGet (jGet doc "coord") "lat") 0,
       lon := jGetF (jGet (jGet doc "coord") "lon") 0,
       weather := firstWeatherCondition (jGet doc "weather"),
       main := parseMainData (jGet doc "main"),
       visibility := jGetI (jGet doc "visibility") 0,
       wind := parseWindData (jGet doc "wind"),
       clouds := jGetI (jGet (jGet doc "clouds") "all") 0,
       rain_1h := jGetF (jGet (jGet doc "rain") "1h") 0,
       snow_1h := jGetF (jGet (jGet doc "snow") "1h") 0,
       dt := jGetU (jGet doc "dt") 0,
       country := strFit OWM_COUNTRY_SIZE (jGetS (jGet (jGet doc "sys") "country") ""),
       sunrise := jGetU (jGet (jGet doc "sys") "sunrise") 0,
       sunset := jGetU (jGet (jGet doc "sys") "sunset") 0,
       timezone := jGetI (jGet doc "timezone") 0,
       name := strFit OWM_CITY_NAME_SIZE (jGetS (jGet doc "name") "") }, true)

/-- The common list-filling loop shape
`for (JsonObject item : list) { if (count >= maxItems) break;
out[count] = decode(item); count++; }`
used by `parseForecast`, `parseAirPollutionList` and `parseGeoLocations`.
Returns the updated output array and the final counter. -/
def jsonFillLoop (f : Json → α) : List Json → List α → Int → Int → List α × Int
  | [], out, _, count => (out, count)
  | item :: rest, out, maxItems, count =>
    if maxItems ≤ count then (out, count)
    else jsonFillLoop f rest (out.set count.toNat (f item)) maxItems (count + 1)

/-- Decoding of one forecast list entry (`parseForecast` loop body,
lines 649-669); the items array was `memset` to zero. -/
def decodeForecastItem (item : Json) : OWM_ForecastItem :=
  { dt := jGetU (jGet item "dt") 0,
    main := parseMainData (jGet item "main"),
    weather := firstWeatherCondition (jGet item "weather"),
    wind := parseWindData (jGet item "wind"),
    clouds := jGetI (jGet (jGet item "clouds") "all") 0,
    visibility := jGetI (jGet item "visibility") 0,
    pop := jGetF (jGet item "pop") 0,
    rain_3h := jGetF (jGet (jGet item "rain") "3h") 0,
    snow_3h := jGetF (jGet (jGet item "snow") "3h") 0,
    dt_txt := strFit 20 (jGetS (jGet item "dt_txt") "") }

/-- `parseForecast` body for a successfully deserialized document
(lines 637-684), also exposing the loop's final index (the number of list
entries actually decoded). -/
def parseForecastAux (doc : Json) : OWM_Forecast × Int :=
  let cnt0 := jGetI (jGet doc "cnt") 0
  let cnt := if cnt0 > OWM_MAX_FORECAST_ITEMS then OWM_MAX_FORECAST_ITEMS else cnt0
  let fill := jsonFillLoop decodeForecastItem (jArrItems (jGet doc "list"))
      (List.replicate 40 zeroForecastItem) cnt 0
  let city := jGet doc "city"
  ({ cnt := cnt,
     items := fill.1,
     city_name := strFit OWM_CITY_NAME_SIZE (jGetS (jGet city "name") ""),
     country := strFit OWM_COUNTRY_SIZE (jGetS (jGet city "country") ""),
     lat := jGetF (jGet (jGet city "coord") "lat") 0,
     lon := jGetF (jGet (jGet city "coord") "lon") 0,
     timezone := jGetI (jGet city "timezone") 0,
     sunrise := jGetU (jGet city "sunrise") 0,
     sunset := jGetU (jGet city "sunset") 0 }, fill.2)

/-- `parseForecast` (lines 625-685): `memset` first, `false` with the zeroed
structure on a deserialization error, else fill and return `true`. -/
def parseForecast (body : Option Json) : OWM_Forecast × Bool :=
  match body with
  | none => (zeroForecast, false)
  | some doc => ((parseForecastAux doc).1, true)

/-- Number of forecast list entries the `parseForecast` loop decodes
(its final `index`); 0 when deserialization failed before the loop. -/
def forecastDecodedCount (body : Option Json) : Int :=
  match body with
  | none => 0
  | some doc => (parseForecastAux doc).2

/-- Decoding of one air-pollution list entry (`parseAirPollutionList` loop
body, lines 727-731, same reads as `parseAirPollution`). -/
def decodeAirPollutionItem (item : Json) : OWM_AirPollution :=
  { dt := jGetU (jGet item "dt") 0,
    aqi := jGetI (jGet (jGet item "main") "aqi") 0,
    components := parseAirComponents (jGet item "components") }

/-- `parseAirPollution` (lines 687-709): `memset` first; on success reads
only the first element of `doc["list"]` when that is a non-empty array. -/
def parseAirPollution (body : Option Json) : OWM_AirPollution × Bool :=
  match body with
  | none => (zeroAirPollution, false)
  | some doc =>
    match jGet doc "list" with
    | .arr (item :: _) => (decodeAirPollutionItem item, true)
    | _ => (zeroAirPollution, true)

/-- `parseAirPollutionList` (lines 711-737).  There is no `memset`: the
caller-provided array `out` is modified only at the indices the loop
writes.  Result: updated array, count (`-1` on deserialization error), and
the `setError` message when one is set. -/
def parseAirPollutionList (body : Option Json) (out : List OWM_AirPollution)
    (maxItems : Int) : List OWM_AirPollution × Int × Option String :=
  match body with
  | none => (out, -1, some "JSON parse error")
  | some doc =>
    let fill := jsonFillLoop decodeAirPollutionItem (jArrItems (jGet doc "list"))
        out maxItems 0
    (fill.1, fill.2, none)

/-- Decoding of one geocoding array entry (`parseGeoLocations` loop body,
lines 761-765).  This is the *written content* of each text field; see
`strncpyBuf` below for the byte-level termination behaviour. -/
def decodeGeoItem (item : Json) : OWM_GeoLocation :=
  { name := strFit OWM_CITY_NAME_SIZE (jGetS (jGet item "name") ""),
    country := strFit OWM_COUNTRY_SIZE (jGetS (jGet item "country") ""),
    state := strFit 32 (jGetS (jGet item "state") ""),
    lat := jGetF (jGet item "lat") 0,
    lon := jGetF (jGet item "lon") 0 }

/-- `parseGeoLocations` (lines 739-771).  No `memset`; a deserialization
error yields `-1` with "JSON parse error"; a successfully parsed document
whose top level is not an array yields `-1` with "Invalid response format";
otherwise the bounded fill loop runs and the count is returned. -/
def parseGeoLocations (body : Option Json) (out : List OWM_GeoLocation)
    (maxResults : Int) : List OWM_GeoLocation × Int × Option String :=
  match body with
  | none => (out, -1, some "JSON parse error")
  | some doc =>
    if jIsArr doc = false then
      (out, -1, some "Invalid response format")
    else
      let fill := jsonFillLoop decodeGeoItem (jArrItems doc) out maxResults 0
      (fill.1, fill.2, none)

/-- `parseGeoZip` (lines 773-790): `memset` first, single object decode. -/
def parseGeoZip (body : Option Json) : OWM_GeoLocation × Bool :=
  match body with
  | none => (zeroGeoLocation, false)
  | some doc =>
    ({ name := strFit OWM_CITY_NAME_SIZE (jGetS (jGet doc "name") ""),
       country := strFit OWM_COUNTRY_SIZE (jGetS (jGet doc "country") ""),
       state := "",
       lat := jGetF (jGet doc "lat") 0,
       lon := jGetF (jGet doc "lon") 0 }, true)

-- ============================================================
-- Byte-level model of strncpy (for the un-memset contexts)
-- ============================================================

/-- Byte-level `strncpy(dest, src, n)`: the first `n` bytes of `dest`
become the corresponding source bytes, zero-padded once `src` is
exhausted; bytes of `dest` at positions `≥ n` are left untouched.  `src`
is the byte content of the source C string (all bytes non-zero). -/
def strncpyBuf : List Nat → List Nat → Nat → List Nat
  | dest, _, 0 => dest
  | [], _, _ + 1 => []
  | _ :: ds, [], m + 1 => 0 :: strncpyBuf ds [] m
  | _ :: ds, b :: bs, m + 1 => b :: strncpyBuf ds bs m

/-- A C string buffer is readable iff some byte within the buffer is 0. -/
def hasNullByte (buf : List Nat) : Bool :=
  buf.any (fun b => b == 0)

/-- The `name` field write of `parseGeoLocations` (line 761):
`strncpy(locations[count].name, item["name"] | "", sizeof(name) - 1)`
into the caller's 64-byte buffer `buf`, which the function never zeroes
or terminates. -/
def geoNameWrite (buf : List Nat) (src : List Nat) : List Nat :=
  strncpyBuf buf src (OWM_CITY_NAME_SIZE - 1)

-- ============================================================
-- Request-path building (Parameter Encoder)
-- ============================================================

/-- The clamp at the top of `getCoordinatesByName` /
`getLocationByCoordinates` (lines 66-68, 125-127):
`if (maxResults > OWM_MAX_GEO_RESULTS) maxResults = OWM_MAX_GEO_RESULTS;`. -/
def clampGeoLimit (maxResults : Int) : Int :=
  if maxResults > OWM_MAX_GEO_RESULTS then OWM_MAX_GEO_RESULTS else maxResults

/-- The direct-geocoding request path built by `getCoordinatesByName`
(lines 95-98): `snprintf(path, 256, "/geo/1.0/direct?q=%s&limit=%d&appid=%s",
encodedQuery, maxResults, _apiKey)` after the clamp; `snprintf` keeps at
most 255 characters. -/
def directGeoPath (encodedQuery : String) (maxResults : Int) (apiKey : String) : String :=
  ("/geo/1.0/direct?q=" ++ encodedQuery ++ "&limit=" ++ toString (clampGeoLimit maxResults)
    ++ "&appid=" ++ apiKey).take 255

/-- The `cnt` query fragment built by `getForecast` (lines 260-264):
`if (cnt > 0) snprintf(cntParam, 16, "&cnt=%d", cnt); else cntParam[0]=0;`
— note there is no clamping of `cnt` here. -/
def forecastCntParam (cnt : Int) : String :=
  if cnt > 0 then ("&cnt=" ++ toString cnt).take 15 else ""

-- ============================================================
-- Client state, transport and facade (cache + HTTP)
-- ============================================================

/-- The client fields involved in the claims (`OpenWeatherMap` private
state). -/
structure OWMClient where
  cacheDuration : Nat
  lastWeatherTime : Nat
  cachedLat : Rat
  cachedLon : Rat
  cachedWeather : OWM_CurrentWeather
  hasCachedWeather : Bool
  lastHttpCode : Int
  lastError : String
deriving DecidableEq, Repr

/-- The client state right after the constructor (cache-relevant and
diagnostic fields). -/
def initialClient : OWMClient :=
  { cacheDuration := 60000, lastWeatherTime := 0, cachedLat := 0,
    cachedLon := 0, cachedWeather := zeroCurrentWeather,
    hasCachedWeather := false, lastHttpCode := 0, lastError := "" }

/-- Outcome of one HTTP exchange attempt, as seen by `httpGet`:
the connection failed, the wait for bytes timed out, or a response with a
status code and a body arrived (the body given as its parse outcome,
`none` when it is not syntactically valid JSON). -/
inductive NetResult where
  | connectFailed
  | timeout
  | response (code : Int) (body : Option Json)

/-- `setError` (lines 843-848): bounded copy into `_lastError[64]`. -/
def setErrorMsg (e : String) : String := strFit 64 e

/-- The error message `snprintf(_lastError, 64, "HTTP Error: %d", code)`
(lines 363, 539). -/
def msgHttpError (code : Int) : String :=
  ("HTTP Error: " ++ toString code).take 63

/-- `httpGet` (lines 327-545), both platform variants: on a completed
exchange `_lastHttpCode` is set to the status code and a non-200 code
fails with "HTTP Error: <code>" without exposing the body; transport
failures fail with their message and leave `_lastHttpCode` unchanged.
Returns the new state and `some body` exactly on success. -/
def httpGetM (st : OWMClient) (net : NetResult) : OWMClient × Option (Option Json) :=
  match net with
  | .connectFailed => ({ st with lastError := setErrorMsg "Connection failed" }, none)
  | .timeout => ({ st with lastError := setErrorMsg "Response timeout" }, none)
  | .response code body =>
    if code = 200 then
      ({ st with lastHttpCode := code }, some body)
    else
      ({ st with lastHttpCode := code, lastError := msgHttpError code }, none)

/-- 32-bit unsigned `millis()` subtraction `now - last`. -/
def usub32 (now last : Nat) : Nat :=
  (now % 4294967296 + 4294967296 - last % 4294967296) % 4294967296

/-- The cache-hit test of `getCurrentWeather` (lines 148-152):
non-zero duration, a cached entry, age below the duration, and both
requested coordinates within 0.01 of the cached ones. -/
def cacheHit (st : OWMClient) (lat lon : Rat) (now : Nat) : Bool :=
  decide (0 < st.cacheDuration) && st.hasCachedWeather &&
  decide (usub32 now st.lastWeatherTime < st.cacheDuration) &&
  decide (|st.cachedLat - lat| < 1/100) && decide (|st.cachedLon - lon| < 1/100)

/-- `getCurrentWeather` (lines 146-185).  `tEntry` is the `millis()` read
in the cache check, `tStore` the one at the cache update.  Returns the new
client state, `some` weather on success (`none` models the `false`
return), and whether a network round trip was performed. -/
def getCurrentWeatherM (st : OWMClient) (lat lon : Rat) (tEntry tStore : Nat)
    (net : NetResult) : OWMClient × Option OWM_CurrentWeather × Bool :=
  if cacheHit st lat lon tEntry then
    (st, some st.cachedWeather, false)
  else
    match httpGetM st net with
    | (st1, none) => (st1, none, true)
    | (st1, some body) =>
      match parseCurrentWeather body with
      | (w, true) =>
        if 0 < st1.cacheDuration then
          ({ st1 with
              cachedWeather := w, cachedLat := lat, cachedLon := lon,
              lastWeatherTime := tStore, hasCachedWeather := true }, some w, true)
        else (st1, some w, true)
      | (_, false) =>
        ({ st1 with lastError := setErrorMsg "JSON parse error" }, none, true)

/-- `getAirPollutionForecast` (lines 220-233) after path building: a failed
exchange returns `-1` with the caller's array untouched, otherwise the
body goes to `parseAirPollutionList`. -/
def getAirPollutionForecastM (st : OWMClient) (out : List OWM_AirPollution)
    (maxItems : Int) (net : NetResult) : OWMClient × List OWM_AirPollution × Int :=
  match httpGetM st net with
  | (st1, none) => (st1, out, -1)
  | (st1, some body) =>
    match parseAirPollutionList body out maxItems with
    | (out1, c, some e) => ({ st1 with lastError := setErrorMsg e }, out1, c)
    | (out1, c, none) => (st1, out1, c)

-- ============================================================
-- Concrete inputs used in scenario theorems
-- ============================================================

/-- The parsed form of the spec's current-weather scenario body
`{"coord":{"lat":10.0,"lon":20.0},"weather":[{"id":800,"main":"Clear",
"description":"clear sky","icon":"01d"}],"main":{"temp":25.5,"humidity":60},
"dt":1700000000,"sys":{"country":"US"},"name":"Testville"}`. -/
def c2Body : Json :=
  .obj [("coord", .obj [("lat", .num 10), ("lon", .num 20)]),
        ("weather", .arr [.obj [("id", .num 800), ("main", .str "Clear"),
                                ("description", .str "clear sky"),
                                ("icon", .str "01d")]]),
        ("main", .obj [("temp", .num 25.5), ("humidity", .num 60)]),
        ("dt", .num 1700000000),
        ("sys", .obj [("country", .str "US")]),
        ("name", .str "Testville")]

/-- A non-zero air-pollution entry standing for a caller's uninitialized
output array element. -/
def dirtyAir : OWM_AirPollution :=
  { dt := 7, aqi := 3, components := { zeroAirComponents with co := 1 } }

/-- A non-zero geolocation entry standing for a caller's uninitialized
output array element. -/
def dirtyGeo : OWM_GeoLocation :=
  { name := "stale", country := "XX", state := "YY", lat := 1, lon := 2 }

/-- The client state after a first successful `getCurrentWeather(10, 20, w)`
call on a fresh client whose exchange returned status 200 with body
`{}` at time 5. -/
def cachedDemoClient : OWMClient :=
  { initialClient with
      cachedWeather := zeroCurrentWeather, cachedLat := 10, cachedLon := 20,
      lastWeatherTime := 5, hasCachedWeather := true, lastHttpCode := 200 }

/-- Sequential block write `out[i..i+len(vs)-1] := vs` (the effect of the
bounded fill loop on the output array). -/
def fillFrom (out : List α) (i : Nat) (vs : List α) : List α :=
  match vs with
  | [] => out
  | v :: rest => fillFrom (out.set i v) (i + 1) rest

-- ============================================================
-- Helper lemmas about the bounded fill loop
-- ============================================================

theorem take_succ_set (v : α) : ∀ (l : List α) (i : Nat), i < l.length →
    (l.set i v).take (i + 1) = l.take i ++ [v]
  | [], i, h => by simp at h
  | _ :: _, 0, _ => by simp
  | x :: xs, i + 1, h => by
    have ih := take_succ_set v xs i (by simpa using h)
    simp only [List.set_cons_succ, List.take_succ_cons, ih]
    rfl

theorem fillFrom_eq (vs : List α) : ∀ (out : List α) (i : Nat),
    i + vs.length ≤ out.length →
    fillFrom out i vs = out.take i ++ vs ++ out.drop (i + vs.length) := by
  induction vs with
  | nil =>
    intro out i _
    simp [fillFrom]
  | cons v rest ih =>
    intro out i h
    have hi : i < out.length := by
      simp only [List.length_cons] at h; omega
    have hlen : (i + 1) + rest.length ≤ (out.set i v).length := by
      simp only [List.length_set, List.length_cons] at h ⊢; omega
    rw [show fillFrom out i (v :: rest) = fillFrom (out.set i v) (i + 1) rest from rfl,
      ih _ _ hlen, take_succ_set v out i hi,
      List.drop_set_of_lt _ _ (by omega : i < i + 1 + rest.length)]
    have hidx : i + 1 + rest.length = i + (v :: rest).length := by
      simp [List.length_cons]; omega
    rw [hidx]
    simp

theorem jsonFillLoop_eq (f : Json → α) : ∀ (es : List Json) (out : List α) (m c : Int),
    0 ≤ c → c ≤ m → (m - c).toNat ≤ es.length →
    jsonFillLoop f es out m c
      = (fillFrom out c.toNat ((es.take (m - c).toNat).map f), m) := by
  intro es
  induction es with
  | nil =>
    intro out m c h0 hcm hlen
    simp only [List.length_nil, Nat.le_zero] at hlen
    have hmc : m = c := by omega
    subst hmc
    rw [hlen]
    simp [jsonFillLoop, fillFrom]
  | cons e rest ih =>
    intro out m c h0 hcm hlen
    by_cases hc : m ≤ c
    · have hmc : m = c := le_antisymm hc hcm
      subst hmc
      have hz : (m - m).toNat = 0 := by omega
      rw [jsonFillLoop, if_pos (le_refl m), hz]
      simp [fillFrom]
    · rw [jsonFillLoop, if_neg hc,
        ih (out.set c.toNat (f e)) m (c + 1) (by omega) (by omega)
          (by simp only [List.length_cons] at hlen; omega)]
      have hn : (m - c).toNat = (m - (c + 1)).toNat + 1 := by omega
      have h1 : (c + 1).toNat = c.toNat + 1 := by omega
      rw [hn, h1, List.take_succ_cons, List.map_cons]
      rfl

theorem jsonFillLoop_count (f : Json → α) : ∀ (es : List Json) (out : List α) (m c : Int),
    (jsonFillLoop f es out m c).2 = c + min (max (m - c) 0) (es.length : Int) := by
  intro es
  induction es with
  | nil =>
    intro out m c
    simp only [jsonFillLoop, List.length_nil, Nat.cast_zero]
    omega
  | cons e rest ih =>
    intro out m c
    rw [jsonFillLoop]
    by_cases hc : m ≤ c
    · rw [if_pos hc]
      simp only [List.length_cons]
      push_cast
      omega
    · rw [if_neg hc, ih]
      simp only [List.length_cons]
      push_cast
      omega

/-- Closed form of the fill loop started at index 0 when the array has more
entries than the requested maximum: exactly the first `m` decoded entries,
in order, followed by the untouched tail of the output array. -/
theorem fillLoop_closed (f : Json → α) (es : List Json) (out : List α) (m : Int)
    (h0 : 0 ≤ m) (hes : m.toNat ≤ es.length) (hout : m.toNat ≤ out.length) :
    jsonFillLoop f es out m 0 = ((es.take m.toNat).map f ++ out.drop m.toNat, m) := by
  rw [jsonFillLoop_eq f es out m 0 (le_refl 0) h0 (by omega)]
  have hm0 : (m - 0).toNat = m.toNat := by omega
  rw [hm0, fillFrom_eq _ _ _
    (by simp only [List.length_map, List.length_take]; omega)]
  simp [List.length_map, List.length_take, Nat.min_eq_left hes]

-- ============================================================
-- Claim theorems
-- ============================================================

/-- C1 (code_bug evidence).  `parseGeoLocations` copies `item["name"]` with
`strncpy(locations[count].name, item["name"] | "", sizeof(name) - 1)` into a
caller-provided buffer that is never zeroed or explicitly terminated
(no `memset` in that function).  When the JSON name has 63 or more bytes,
`strncpy` writes 63 non-zero bytes and the 64th byte keeps the caller's
garbage: the field is NOT null-terminated within its declared capacity,
contradicting the claimed invariant.  A shorter source (62 bytes) is
zero-padded by `strncpy` and stays terminated. -/
theorem geoName_strncpy_unterminated :
    hasNullByte (geoNameWrite (List.replicate OWM_CITY_NAME_SIZE 65)
        (List.replicate 63 65)) = false
    ∧ (geoNameWrite (List.replicate OWM_CITY_NAME_SIZE 65)
        (List.replicate 63 65)).length = OWM_CITY_NAME_SIZE
    ∧ hasNullByte (geoNameWrite (List.replicate OWM_CITY_NAME_SIZE 65)
        (List.replicate 62 65)) = true := by
  refine ⟨by decide, by decide, by decide⟩

/-- C2.  Decoding the spec's scenario body as current weather succeeds and
yields exactly the claimed field values, with every absent optional field
(visibility, wind, clouds, rain, snow, sunrise, sunset, timezone,
feels_like, temp_min/max, pressure, sea/ground level) at its zero
default. -/
theorem parseCurrentWeather_scenario :
    parseCurrentWeather (some c2Body) =
      ({ lat := 10, lon := 20,
         weather := { id := 800, main := "Clear", description := "clear sky",
                      icon := "01d" },
         main := { temp := 25.5, feels_like := 0, temp_min := 0, temp_max := 0,
                   pressure := 0, humidity := 60, sea_level := 0,
                   grnd_level := 0 },
         visibility := 0, wind := { speed := 0, deg := 0, gust := 0 },
         clouds := 0, rain_1h := 0, snow_1h := 0, dt := 1700000000,
         country := "US", sunrise := 0, sunset := 0, timezone := 0,
         name := "Testville" }, true) := by
  rfl

/-- C4 (counterexample).  On a body that is not syntactically valid JSON the
list decoders return `-1` but leave the caller's output array exactly as it
was — not zero-initialized as the claim states: a pre-existing non-zero
element survives the failed decode unchanged. -/
theorem listDecoder_malformed_output_not_zeroed :
    parseAirPollutionList none [dirtyAir] 1 = ([dirtyAir], -1, some "JSON parse error")
    ∧ dirtyAir ≠ zeroAirPollution
    ∧ parseGeoLocations none [dirtyGeo] 1 = ([dirtyGeo], -1, some "JSON parse error")
    ∧ dirtyGeo ≠ zeroGeoLocation := by
  refine ⟨rfl, by decide, rfl, by decide⟩

/-- C4 (amended).  On malformed JSON every decoder fails; the single-object
decoders (current weather, forecast, air pollution current, zip geocode)
`memset` their output first and hence leave it zero-initialized, while the
list decoders (air-pollution list, geocoding) return `-1` and leave the
caller's array entirely unmodified. -/
theorem malformed_json_decoder_outputs (outA : List OWM_AirPollution)
    (outG : List OWM_GeoLocation) (mA mG : Int) :
    parseCurrentWeather none = (zeroCurrentWeather, false)
    ∧ parseForecast none = (zeroForecast, false)
    ∧ parseAirPollution none = (zeroAirPollution, false)
    ∧ parseGeoZip none = (zeroGeoLocation, false)
    ∧ parseAirPollutionList none outA mA = (outA, -1, some "JSON parse error")
    ∧ parseGeoLocations none outG mG = (outG, -1, some "JSON parse error") :=
  ⟨rfl, rfl, rfl, rfl, rfl, rfl⟩

/-- C7.  For a list payload with at least as many entries as the requested
maximum `m ≥ 0`, both bounded list decoders return count `m` and write
exactly the decoded first `m` entries, in upstream array order, into the
first `m` slots of the output array; the excess entries are dropped without
any error being set. -/
theorem list_decoders_truncate_at_max (es : List Json) (m : Int)
    (outA : List OWM_AirPollution) (outG : List OWM_GeoLocation)
    (h0 : 0 ≤ m) (hes : m.toNat ≤ es.length)
    (hA : m.toNat ≤ outA.length) (hG : m.toNat ≤ outG.length) :
    parseAirPollutionList (some (Json.obj [("list", Json.arr es)])) outA m
      = ((es.take m.toNat).map decodeAirPollutionItem ++ outA.drop m.toNat, m, none)
    ∧ parseGeoLocations (some (Json.arr es)) outG m
      = ((es.take m.toNat).map decodeGeoItem ++ outG.drop m.toNat, m, none) := by
  constructor
  · have hfill := fillLoop_closed decodeAirPollutionItem es outA m h0 hes hA
    show ((jsonFillLoop decodeAirPollutionItem es outA m 0).1,
        (jsonFillLoop decodeAirPollutionItem es outA m 0).2, none) = _
    rw [hfill]
  · have hfill := fillLoop_closed decodeGeoItem es outG m h0 hes hG
    show ((jsonFillLoop decodeGeoItem es outG m 0).1,
        (jsonFillLoop decodeGeoItem es outG m 0).2, none) = _
    rw [hfill]

/-- C7 witness: two upstream entries, requested maximum one. -/
theorem list_decoders_truncate_at_max_witness :
    parseAirPollutionList
        (some (Json.obj [("list", Json.arr [Json.obj [("dt", Json.num 5)], Json.null])]))
        [dirtyAir] 1
      = ([decodeAirPollutionItem (Json.obj [("dt", Json.num 5)])], 1, none)
    ∧ parseGeoLocations (some (Json.arr [Json.obj [("dt", Json.num 5)], Json.null]))
        [dirtyGeo] 1
      = ([decodeGeoItem (Json.obj [("dt", Json.num 5)])], 1, none) := by
  have h := list_decoders_truncate_at_max
    [Json.obj [("dt", Json.num 5)], Json.null] 1 [dirtyAir] [dirtyGeo]
    (by decide) (by decide) (by decide) (by decide)
  simpa using h

/-- C8.  A successfully parsed geocoding body whose top-level value is not an
array fails with the "Invalid response format" error and count `-1`
(output untouched), and this error is distinct from the "JSON parse error"
produced exactly when the body is not syntactically valid JSON. -/
theorem geoLocations_non_array_invalid_format (doc : Json)
    (out : List OWM_GeoLocation) (m : Int) (h : jIsArr doc = false) :
    parseGeoLocations (some doc) out m = (out, -1, some "Invalid response format")
    ∧ parseGeoLocations none out m = (out, -1, some "JSON parse error")
    ∧ "Invalid response format" ≠ "JSON parse error" := by
  refine ⟨?_, rfl, by decide⟩
  show (if jIsArr doc = false then _ else _) = _
  rw [if_pos h]

/-- C8 witness: a top-level JSON object. -/
theorem geoLocations_non_array_invalid_format_witness :
    parseGeoLocations (some (Json.obj [("cod", Json.str "400")])) [dirtyGeo] 5
      = ([dirtyGeo], -1, some "Invalid response format") :=
  (geoLocations_non_array_invalid_format (Json.obj [("cod", Json.str "400")])
    [dirtyGeo] 5 rfl).1

/-- C3 (counterexample).  `getForecast` places `cnt` in the request path
without any clamping: for `cnt = 100` the query fragment is "&cnt=100", not
the "&cnt=40" the claim's clamping-to-40 would require. -/
theorem forecastCnt_not_clamped_in_path :
    forecastCntParam 100 = "&cnt=100" ∧ forecastCntParam 100 ≠ "&cnt=40" := by
  refine ⟨rfl, by decide⟩

/-- C3 (amended).  The geocoding request builders clamp `maxResults` to the
fixed cap of 5 before placing it in the path (silently, never an error),
but the forecast `cnt` is placed in the path unclamped whenever it is
positive (and omitted otherwise); the forecast cap of 40 is enforced only
at decode time, where the stored `cnt` never exceeds 40. -/
theorem request_count_clamping (q key : String) (m c : Int) (doc : Json)
    (hc : 0 < c) :
    clampGeoLimit m = min m OWM_MAX_GEO_RESULTS
    ∧ directGeoPath q m key
      = ("/geo/1.0/direct?q=" ++ q ++ "&limit=" ++ toString (min m OWM_MAX_GEO_RESULTS)
          ++ "&appid=" ++ key).take 255
    ∧ forecastCntParam c = ("&cnt=" ++ toString c).take 15
    ∧ (parseForecast (some doc)).1.cnt ≤ OWM_MAX_FORECAST_ITEMS := by
  have hmin : clampGeoLimit m = min m OWM_MAX_GEO_RESULTS := by
    rw [clampGeoLimit]
    rw [OWM_MAX_GEO_RESULTS]
    split <;> omega
  refine ⟨hmin, by rw [directGeoPath, hmin], ?_, ?_⟩
  · rw [forecastCntParam, if_pos hc]
  · show (parseForecastAux doc).1.cnt ≤ OWM_MAX_FORECAST_ITEMS
    rw [parseForecastAux]
    simp only [OWM_MAX_FORECAST_ITEMS]
    split <;> omega

/-- C3 witness: `maxResults = 7` is clamped to 5; `cnt = 100` is passed
through unclamped; a decoded forecast keeps `cnt ≤ 40`. -/
theorem request_count_clamping_witness :
    (0 : Int) < 100
    ∧ (clampGeoLimit 7 = min 7 OWM_MAX_GEO_RESULTS
      ∧ directGeoPath "Paris" 7 "KEY"
        = ("/geo/1.0/direct?q=" ++ "Paris" ++ "&limit="
            ++ toString (min (7 : Int) OWM_MAX_GEO_RESULTS) ++ "&appid=" ++ "KEY").take 255
      ∧ forecastCntParam 100 = ("&cnt=" ++ toString (100 : Int)).take 15
      ∧ (parseForecast (some Json.null)).1.cnt ≤ OWM_MAX_FORECAST_ITEMS) :=
  ⟨by decide, request_count_clamping "Paris" "KEY" 7 100 Json.null (by decide)⟩

/-- C10 (counterexample).  For the syntactically valid body with `cnt` equal
to -1 and a one-element list, the loop decodes 0 items, while the claimed
formula min(cnt, 40, |list|) gives -1: the claim fails for negative `cnt`
values. -/
theorem forecast_count_min_counterexample :
    forecastDecodedCount
        (some (Json.obj [("cnt", Json.num (-1)), ("list", Json.arr [Json.obj []])])) = 0
    ∧ min (min (-1 : Int) OWM_MAX_FORECAST_ITEMS) 1 = -1
    ∧ (0 : Int) ≠ -1 := by
  refine ⟨rfl, by decide, by decide⟩

/-- C10 (amended).  For every successfully parsed forecast body, the number
of decoded list entries equals
min(max(min(cnt, 40), 0), |list|) where `cnt` is the body's integral `cnt`
value (0 when absent, non-integral, or of the wrong type); the stored
`forecast->cnt` is min(cnt, 40); and the call returns success regardless.
In particular an absent or zero `cnt` decodes 0 items even when the list is
non-empty. -/
theorem forecast_decoded_count_formula (doc : Json) :
    forecastDecodedCount (some doc)
      = min (max (min (jGetI (jGet doc "cnt") 0) OWM_MAX_FORECAST_ITEMS) 0)
          ((jArrItems (jGet doc "list")).length : Int)
    ∧ (parseForecast (some doc)).1.cnt
      = min (jGetI (jGet doc "cnt") 0) OWM_MAX_FORECAST_ITEMS
    ∧ (parseForecast (some doc)).2 = true := by
  refine ⟨?_, ?_, rfl⟩
  · show (parseForecastAux doc).2 = _
    rw [parseForecastAux]
    simp only
    rw [jsonFillLoop_count]
    simp only [OWM_MAX_FORECAST_ITEMS]
    split <;> omega
  · show (parseForecastAux doc).1.cnt = _
    rw [parseForecastAux]
    simp only [OWM_MAX_FORECAST_ITEMS]
    split <;> omega

/-- The cache fields of the client are unchanged by `httpGet` on every
outcome (it only touches `_lastHttpCode` and `_lastError`). -/
theorem httpGetM_preserves_cache (st : OWMClient) (net : NetResult) :
    (httpGetM st net).1.cachedWeather = st.cachedWeather
    ∧ (httpGetM st net).1.cachedLat = st.cachedLat
    ∧ (httpGetM st net).1.cachedLon = st.cachedLon
    ∧ (httpGetM st net).1.lastWeatherTime = st.lastWeatherTime
    ∧ (httpGetM st net).1.hasCachedWeather = st.hasCachedWeather
    ∧ (httpGetM st net).1.cacheDuration = st.cacheDuration := by
  cases net with
  | connectFailed => exact ⟨rfl, rfl, rfl, rfl, rfl, rfl⟩
  | timeout => exact ⟨rfl, rfl, rfl, rfl, rfl, rfl⟩
  | response code body =>
    rw [httpGetM]
    split <;> exact ⟨rfl, rfl, rfl, rfl, rfl, rfl⟩

/-- C6.  When the HTTP exchange yields any status code other than 200, the
exchange fails without ever exposing the body: `_lastHttpCode` is set to
exactly that code and `_lastError` embeds it; consequently a current-weather
call that reaches the network returns the failure sentinel (`none`, the
`false` return) and an air-pollution list call returns `-1`, with no decoder
ever seeing the body. -/
theorem http_non200_fails_without_decoding (st : OWMClient) (code : Int)
    (body : Option Json) (lat lon : Rat) (t0 t1 : Nat)
    (out : List OWM_AirPollution) (m : Int)
    (hcode : code ≠ 200) (hmiss : cacheHit st lat lon t0 = false) :
    httpGetM st (.response code body)
      = ({ st with lastHttpCode := code, lastError := msgHttpError code }, none)
    ∧ getCurrentWeatherM st lat lon t0 t1 (.response code body)
      = ({ st with lastHttpCode := code, lastError := msgHttpError code }, none, true)
    ∧ getAirPollutionForecastM st out m (.response code body)
      = ({ st with lastHttpCode := code, lastError := msgHttpError code }, out, -1) := by
  have h1 : httpGetM st (.response code body)
      = ({ st with lastHttpCode := code, lastError := msgHttpError code }, none) := by
    rw [httpGetM, if_neg hcode]
  refine ⟨h1, ?_, ?_⟩
  · rw [getCurrentWeatherM, if_neg (by simp [hmiss]), h1]
  · rw [getAirPollutionForecastM, h1]

/-- C6 witness: a 404 on a fresh client. -/
theorem http_non200_fails_without_decoding_witness :
    httpGetM initialClient (.response 404 (some Json.null))
      = ({ initialClient with lastHttpCode := 404, lastError := msgHttpError 404 }, none)
    ∧ getCurrentWeatherM initialClient 10 20 0 1 (.response 404 (some Json.null))
      = ({ initialClient with lastHttpCode := 404, lastError := msgHttpError 404 }, none, true)
    ∧ getAirPollutionForecastM initialClient [dirtyAir] 1 (.response 404 (some Json.null))
      = ({ initialClient with lastHttpCode := 404, lastError := msgHttpError 404 },
          [dirtyAir], -1) :=
  http_non200_fails_without_decoding initialClient 404 (some Json.null) 10 20 0 1
    [dirtyAir] 1 (by decide) (by decide)

/-- C9.  Whenever a `getCurrentWeather` call fails (transport failure,
non-200 status, or malformed body — i.e. the call returns the `false`
sentinel, modelled as `none`), every cache field — the cached weather
structure, the cached coordinates, the cache timestamp and the has-cached
flag — keeps its pre-call value; the cache is overwritten only on
success. -/
theorem getCurrentWeather_failure_preserves_cache
    (st st' : OWMClient) (lat lon : Rat) (t0 t1 : Nat) (net : NetResult)
    (r : Option OWM_CurrentWeather) (u : Bool)
    (hrun : getCurrentWeatherM st lat lon t0 t1 net = (st', r, u))
    (hfail : r = none) :
    st'.cachedWeather = st.cachedWeather ∧ st'.cachedLat = st.cachedLat
    ∧ st'.cachedLon = st.cachedLon ∧ st'.lastWeatherTime = st.lastWeatherTime
    ∧ st'.hasCachedWeather = st.hasCachedWeather := by
  subst hfail
  by_cases hh : cacheHit st lat lon t0
  · rw [getCurrentWeatherM, if_pos hh] at hrun
    simp only [Prod.mk.injEq] at hrun
    exact absurd hrun.2.1 (by simp)
  · rw [getCurrentWeatherM, if_neg hh] at hrun
    rcases hnet : httpGetM st net with ⟨st1, ob⟩
    rw [hnet] at hrun
    have hp := httpGetM_preserves_cache st net
    rw [hnet] at hp
    cases ob with
    | none =>
      simp only [Prod.mk.injEq] at hrun
      obtain ⟨h1, -, -⟩ := hrun
      subst h1
      exact ⟨hp.1, hp.2.1, hp.2.2.1, hp.2.2.2.1, hp.2.2.2.2.1⟩
    | some body =>
      dsimp only at hrun hp
      rcases hpar : parseCurrentWeather body with ⟨w, ok⟩
      rw [hpar] at hrun
      cases ok with
      | true =>
        dsimp only at hrun
        by_cases hd : 0 < st1.cacheDuration
        · rw [if_pos hd] at hrun
          simp only [Prod.mk.injEq] at hrun
          exact absurd hrun.2.1 (by simp)
        · rw [if_neg hd] at hrun
          simp only [Prod.mk.injEq] at hrun
          exact absurd hrun.2.1 (by simp)
      | false =>
        dsimp only at hrun
        simp only [Prod.mk.injEq] at hrun
        obtain ⟨h1, -, -⟩ := hrun
        subst h1
        exact ⟨hp.1, hp.2.1, hp.2.2.1, hp.2.2.2.1, hp.2.2.2.2.1⟩

/-- C9 witness: a transport failure on a fresh client leaves all cache
fields equal to their pre-call values. -/
theorem getCurrentWeather_failure_preserves_cache_witness :
    ({ initialClient with lastError := setErrorMsg "Connection failed" } : OWMClient).cachedWeather
        = initialClient.cachedWeather
    ∧ ({ initialClient with lastError := setErrorMsg "Connection failed" } : OWMClient).cachedLat
        = initialClient.cachedLat
    ∧ ({ initialClient with lastError := setErrorMsg "Connection failed" } : OWMClient).cachedLon
        = initialClient.cachedLon
    ∧ ({ initialClient with lastError := setErrorMsg "Connection failed" } : OWMClient).lastWeatherTime
        = initialClient.lastWeatherTime
    ∧ ({ initialClient with lastError := setErrorMsg "Connection failed" } : OWMClient).hasCachedWeather
        = initialClient.hasCachedWeather :=
  getCurrentWeather_failure_preserves_cache initialClient
    { initialClient with lastError := setErrorMsg "Connection failed" }
    10 20 0 1 .connectFailed none true (by decide) rfl

/-- C5.  Given a first `getCurrentWeather` call that succeeded (returning
`w1`) with a non-zero cache duration: a second call whose age is still
below the duration and whose coordinates are within 0.01 of the cached
ones performs no network access, leaves the state unchanged, and returns
exactly `w1`; a second call whose age has reached the duration or whose
coordinates differ by at least the tolerance performs a network round
trip. -/
theorem getCurrentWeather_cache_behavior
    (st0 st1 : OWMClient) (lat1 lon1 lat2 lon2 : Rat) (t0 t1 t2 t3 : Nat)
    (net1 net2 : NetResult) (w1 : OWM_CurrentWeather) (u1 : Bool)
    (hrun : getCurrentWeatherM st0 lat1 lon1 t0 t1 net1 = (st1, some w1, u1))
    (hdur : 0 < st1.cacheDuration) :
    (usub32 t2 st1.lastWeatherTime < st1.cacheDuration →
      |st1.cachedLat - lat2| < 1/100 → |st1.cachedLon - lon2| < 1/100 →
      getCurrentWeatherM st1 lat2 lon2 t2 t3 net2 = (st1, some w1, false))
    ∧ (st1.cacheDuration ≤ usub32 t2 st1.lastWeatherTime ∨
        1/100 ≤ |st1.cachedLat - lat2| ∨ 1/100 ≤ |st1.cachedLon - lon2| →
      (getCurrentWeatherM st1 lat2 lon2 t2 t3 net2).2.2 = true) := by
  have hkey : st1.cachedWeather = w1 ∧ st1.hasCachedWeather = true := by
    by_cases hh : cacheHit st0 lat1 lon1 t0
    · rw [getCurrentWeatherM, if_pos hh] at hrun
      simp only [Prod.mk.injEq, Option.some.injEq] at hrun
      obtain ⟨h1, h2, -⟩ := hrun
      subst h1
      rw [cacheHit] at hh
      simp only [Bool.and_eq_true, decide_eq_true_eq] at hh
      exact ⟨h2, hh.1.1.1.2⟩
    · rw [getCurrentWeatherM, if_neg hh] at hrun
      rcases hnet : httpGetM st0 net1 with ⟨stA, ob⟩
      rw [hnet] at hrun
      cases ob with
      | none =>
        dsimp only at hrun
        simp only [Prod.mk.injEq] at hrun
        exact absurd hrun.2.1 (by simp)
      | some body =>
        dsimp only at hrun
        rcases hpar : parseCurrentWeather body with ⟨w, ok⟩
        rw [hpar] at hrun
        cases ok with
        | true =>
          dsimp only at hrun
          by_cases hd : 0 < stA.cacheDuration
          · rw [if_pos hd] at hrun
            simp only [Prod.mk.injEq, Option.some.injEq] at hrun
            obtain ⟨h1, h2, -⟩ := hrun
            subst h1
            exact ⟨h2, rfl⟩
          · rw [if_neg hd] at hrun
            simp only [Prod.mk.injEq] at hrun
            obtain ⟨h1, -, -⟩ := hrun
            subst h1
            exact absurd hdur hd
        | false =>
          dsimp only at hrun
          simp only [Prod.mk.injEq] at hrun
          exact absurd hrun.2.1 (by simp)
  constructor
  · intro hage hla hlo
    have hhit : cacheHit st1 lat2 lon2 t2 = true := by
      rw [cacheHit]
      simp only [Bool.and_eq_true, decide_eq_true_eq]
      exact ⟨⟨⟨⟨hdur, hkey.2⟩, hage⟩, hla⟩, hlo⟩
    rw [getCurrentWeatherM, if_pos hhit, hkey.1]
  · intro hmiss
    have hhit : cacheHit st1 lat2 lon2 t2 = false := by
      cases hfb : cacheHit st1 lat2 lon2 t2
      · rfl
      · exfalso
        rw [cacheHit] at hfb
        simp only [Bool.and_eq_true, decide_eq_true_eq] at hfb
        rcases hmiss with h | h | h
        · exact absurd hfb.1.1.2 (not_lt.2 h)
        · exact absurd hfb.1.2 (not_lt.2 h)
        · exact absurd hfb.2 (not_lt.2 h)
    rw [getCurrentWeatherM, if_neg (by simp [hhit])]
    rcases hB : httpGetM st1 net2 with ⟨stB, ob⟩
    cases ob with
    | none => rfl
    | some body =>
      dsimp only
      rcases hp2 : parseCurrentWeather body with ⟨w, ok⟩
      cases ok with
      | true =>
        dsimp only
        split
        · rfl
        · rfl
      | false => rfl

/-- C5 witness: after a successful first call at (10, 20) at time 5, a
second call at the same coordinates at time 100 (age 95 < 60000) returns
the first call's result without a network access — even though its network
oracle would fail. -/
theorem getCurrentWeather_cache_behavior_witness :
    getCurrentWeatherM cachedDemoClient 10 20 100 101 .connectFailed
      = (cachedDemoClient, some zeroCurrentWeather, false) :=
  (getCurrentWeather_cache_behavior initialClient cachedDemoClient 10 20 10 20 0 5 100 101
      (.response 200 (some (Json.obj []))) .connectFailed zeroCurrentWeather true
      (by decide) (by decide)).1
    (by decide) (by norm_num [cachedDemoClient, initialClient])
    (by norm_num [cachedDemoClient, initialClient])
